import Mathlib

/-!
# Verification of the LeetCode helper core logic

Shallow embedding of the core logic of the repository:

* the session flow state machine of `src/_pages/Solutions.tsx`
  (cache subscription handler, `setQueryData` cache writes, and the
  platform event handlers `onProblemExtracted`, `onSolutionSuccess`,
  `onSolutionError`);
* the reveal bookkeeping of `src/lib/supabaseSchema.ts`
  (`trackCodeReveal`, `updateLearningProgressFromReveal`,
  `getRecommendedCategories`, `useHintCredit`);
* the progressive disclosure of
  `src/components/Solutions/BlurredCodeSection.tsx`
  (`REVEAL_LEVELS`, `getVisibleLines`, `handleRevealMore`).

Machine floats of the source (`avg_reveal_level`, percentages) are
modelled as exact rationals, and JavaScript timestamps as natural
numbers of milliseconds.
-/

/-! ## Session flow state machine (`Solutions.tsx`) -/

/-- The `SolutionStep` union type of `Solutions.tsx`. -/
inductive SolutionStep
  | extracting
  | user_explanation
  | generating_solution
  | solution_ready
  | debug
deriving DecidableEq, Repr

/-- The query-cache keys the component reads and subscribes to.
`other` stands for any unrelated cache key. -/
inductive CacheKey
  | problem_statement
  | solution
  | new_solution
  | other
deriving DecidableEq, Repr

/-- The session query cache.  Payloads are opaque and modelled by
natural-number identifiers. -/
structure Cache where
  problem_statement : Option Nat
  solution : Option Nat
  new_solution : Option Nat
deriving DecidableEq, Repr

/-- The view prop (`setView`) of the `Solutions` component. -/
inductive View
  | queue
  | solutions
  | debugView
deriving DecidableEq, Repr

/-- The component state relevant to the flow machine: the current step,
the `hasSubmittedExplanation` guard flag, the cached problem and
solution mirrors, the query cache, the outer view and a toast
counter. -/
structure FlowState where
  currentStep : SolutionStep
  hasSubmittedExplanation : Bool
  problemInfo : Option Nat
  solutionData : Option Nat
  cache : Cache
  view : View
  toastCount : Nat
deriving DecidableEq, Repr

/-- The `shouldUpdateStep` guard computed in the cache effect of
`Solutions.tsx`: it is cleared exactly when the machine is in
`user_explanation` and no explanation has been submitted yet. -/
def shouldUpdateStep (s : FlowState) : Bool :=
  !(s.currentStep == SolutionStep.user_explanation && !s.hasSubmittedExplanation)

/-- The query-cache subscription handler of `Solutions.tsx`
(`queryClient.getQueryCache().subscribe`): each branch fires only for
its key and only when `shouldUpdateStep` holds; the step transitions
are additionally guarded by the current step. -/
def cacheNotify (k : CacheKey) (s : FlowState) : FlowState :=
  let g := shouldUpdateStep s
  if k == CacheKey.problem_statement && g then
    { s with problemInfo := s.cache.problem_statement,
             currentStep :=
               if s.currentStep == SolutionStep.extracting then
                 SolutionStep.user_explanation
               else s.currentStep }
  else if k == CacheKey.solution && g then
    { s with solutionData := s.cache.solution,
             currentStep :=
               if s.currentStep == SolutionStep.generating_solution then
                 SolutionStep.solution_ready
               else s.currentStep }
  else if k == CacheKey.new_solution && g then
    { s with currentStep := SolutionStep.debug }
  else s

/-- Model of `queryClient.setQueryData`: writes the cache entry for `k` and
synchronously notifies the cache subscription. -/
def setQueryData (k : CacheKey) (v : Nat) (s : FlowState) : FlowState :=
  let c := s.cache
  let c' :=
    match k with
    | CacheKey.problem_statement => { c with problem_statement := some v }
    | CacheKey.solution => { c with solution := some v }
    | CacheKey.new_solution => { c with new_solution := some v }
    | CacheKey.other => c
  cacheNotify k { s with cache := c' }

/-- The `onProblemExtracted` platform event handler of `Solutions.tsx`:
writes the problem statement to the cache, mirrors it into component
state and sets the step to `user_explanation` unconditionally. -/
def onProblemExtracted (d : Nat) (s : FlowState) : FlowState :=
  let s1 := setQueryData CacheKey.problem_statement d s
  { s1 with problemInfo := some d,
            currentStep := SolutionStep.user_explanation }

/-- The `onSolutionSuccess` platform event handler of `Solutions.tsx`:
empty data is ignored; otherwise the solution is written to the cache,
mirrored into component state, and the step is set to `solution_ready`
unconditionally. -/
def onSolutionSuccess (d : Option Nat) (s : FlowState) : FlowState :=
  match d with
  | none => s
  | some v =>
    let s1 := setQueryData CacheKey.solution v s
    { s1 with solutionData := some v,
              currentStep := SolutionStep.solution_ready }

/-- The `onSolutionError` platform event handler of `Solutions.tsx`:
shows a toast, reads the cached solution, switches the view to `queue`
only when no cached solution exists, and replaces the displayed
solution data by the cached value. -/
def onSolutionError (s : FlowState) : FlowState :=
  let s1 := { s with toastCount := s.toastCount + 1 }
  match s.cache.solution with
  | none => { s1 with view := View.queue, solutionData := none }
  | some v => { s1 with solutionData := some v }

/-! ## Reveal bookkeeping (`supabaseSchema.ts`, `trackCodeReveal`) -/

/-- A `code_reveals` row for one `(user, problem, section_type,
section_index)` key: the stored reveal level and the nullable
satisfaction level. -/
structure CodeRevealRow where
  reveal_level : Int
  satisfied_at_level : Option Int
deriving DecidableEq, Repr

/-- The row-transformation of `trackCodeReveal` in `supabaseSchema.ts`
for one key: with no existing row a new row is inserted verbatim; with
an existing row, a strictly larger reveal level overwrites both
columns, and otherwise `satisfied_at_level` is filled only when it was
previously null. -/
def trackCodeReveal (existing : Option CodeRevealRow)
    (revealLevel : Int) (satisfiedAtLevel : Option Int) : CodeRevealRow :=
  match existing with
  | none =>
      { reveal_level := revealLevel, satisfied_at_level := satisfiedAtLevel }
  | some r =>
      if r.reveal_level < revealLevel then
        { reveal_level := revealLevel, satisfied_at_level := satisfiedAtLevel }
      else if satisfiedAtLevel.isSome && r.satisfied_at_level.isNone then
        { r with satisfied_at_level := satisfiedAtLevel }
      else r

/-! ## Learning analytics (`supabaseSchema.ts`,
`updateLearningProgressFromReveal`) -/

/-- A stored `code_reveals` row as returned by the recent-reveals query
(reveal level, satisfaction level, owning problem, creation time in
milliseconds). -/
structure StoredReveal where
  problem_id : Nat
  reveal_level : Int
  satisfied_at_level : Option Int
  created_at : Nat
deriving DecidableEq, Repr

/-- Model of the `satisfied_at_level || reveal_level` fallback of the source, with JavaScript
falsiness: a null or zero satisfaction level falls back to the reveal
level. -/
def effectiveLevel (r : StoredReveal) : Int :=
  match r.satisfied_at_level with
  | some s => if s = 0 then r.reveal_level else s
  | none => r.reveal_level

/-- The deduplicating accumulation loop of
`updateLearningProgressFromReveal`: walking the reveal rows in order,
a problem id is counted only the first time it occurs, contributing
the effective level of that first row.  Returns
`(uniqueProblems, totalRevealLevel, totalProblems)`. -/
def revealFold (rs : List StoredReveal) : List Nat × Int × Nat :=
  rs.foldl
    (fun acc r =>
      if r.problem_id ∈ acc.1 then acc
      else (r.problem_id :: acc.1, acc.2.1 + effectiveLevel r, acc.2.2 + 1))
    ([], 0, 0)

/-- The `avgRevealLevel` computation of `updateLearningProgressFromReveal`: the mean of
one effective level per distinct problem, and `5` when no reveal
contributes. -/
def avgRevealLevel (rs : List StoredReveal) : ℚ :=
  let acc := revealFold rs
  if acc.2.2 > 0 then (acc.2.1 : ℚ) / (acc.2.2 : ℚ) else 5

/-- The length of the trailing window of
`updateLearningProgressFromReveal`, thirty days in milliseconds. -/
def thirtyDaysMs : Nat := 30 * 24 * 60 * 60 * 1000

/-- The recent-reveals query of `updateLearningProgressFromReveal`: the
stored reveals of the user created within the trailing thirty-day
window whose problem belongs to the affected category. -/
def recentReveals (now : Nat) (categoryProblemIds : List Nat)
    (reveals : List StoredReveal) : List StoredReveal :=
  reveals.filter (fun r =>
    now - thirtyDaysMs ≤ r.created_at && r.problem_id ∈ categoryProblemIds)

/-- A `learning_progress` row (the columns written by
`updateLearningProgressFromReveal`). -/
structure LearningProgressRow where
  category : String
  problems_attempted : Nat
  problems_solved : Nat
  avg_reveal_level : ℚ
deriving DecidableEq, Repr

/-- The row written (inserted or updated) by
`updateLearningProgressFromReveal`: the category average is recomputed
from scratch over the trailing window, and the attempted/solved
counters are taken from the insert or update branch of the source. -/
def updateLearningProgressFromReveal (now : Nat) (category : String)
    (categoryProblemIds : List Nat) (reveals : List StoredReveal)
    (progress : Option LearningProgressRow)
    (satisfiedAtLevel : Option Int) : LearningProgressRow :=
  let rr := recentReveals now categoryProblemIds reveals
  let avg := avgRevealLevel rr
  match progress with
  | none =>
      { category := category
        problems_attempted := 1
        problems_solved := if satisfiedAtLevel.isSome then 1 else 0
        avg_reveal_level := avg }
  | some p =>
      { category := category
        problems_attempted := (revealFold rr).2.2
        problems_solved :=
          p.problems_solved + (if satisfiedAtLevel.isSome then 1 else 0)
        avg_reveal_level := avg }

/-! ## Recommendations (`supabaseSchema.ts`,
`getRecommendedCategories`) -/

/-- The two focus-reason strings of `getRecommendedCategories`,
abstracted to an enumeration. -/
inductive FocusReason
  | needsMoreHelp
  | makingGoodProgress
deriving DecidableEq, Repr

/-- An input `learning_progress` row of `getRecommendedCategories`. -/
structure ProgressEntry where
  category : String
  avg_reveal_level : ℚ
  problems_attempted : Nat
  problems_solved : Nat
deriving DecidableEq, Repr

/-- An output recommendation of `getRecommendedCategories`. -/
structure Recommendation where
  category : String
  avg_reveal_level : ℚ
  problems_attempted : Nat
  problems_solved : Nat
  focus_reason : FocusReason
deriving DecidableEq, Repr

/-- The map step of `getRecommendedCategories`: the threshold rule
attaching the focus reason. -/
def toRecommendation (e : ProgressEntry) : Recommendation :=
  { category := e.category
    avg_reveal_level := e.avg_reveal_level
    problems_attempted := e.problems_attempted
    problems_solved := e.problems_solved
    focus_reason :=
      if e.avg_reveal_level > 3 then FocusReason.needsMoreHelp
      else FocusReason.makingGoodProgress }

/-- The descending comparison used by the final
`.sort((a, b) => b.avg_reveal_level - a.avg_reveal_level)`. -/
def recDescending (a b : Recommendation) : Prop :=
  b.avg_reveal_level ≤ a.avg_reveal_level

instance : DecidableRel recDescending := fun a b =>
  inferInstanceAs (Decidable (b.avg_reveal_level ≤ a.avg_reveal_level))

instance : IsTotal Recommendation recDescending :=
  ⟨fun a b => le_total b.avg_reveal_level a.avg_reveal_level⟩

instance : IsTrans Recommendation recDescending :=
  ⟨fun _ _ _ h1 h2 => le_trans h2 h1⟩

/-- Model of `getRecommendedCategories` of `supabaseSchema.ts` on the fetched
`learning_progress` rows: filter to categories with at least one
attempted problem, attach the threshold focus reason, and sort
descending by `avg_reveal_level`. -/
def getRecommendedCategories (progressData : List ProgressEntry) :
    List Recommendation :=
  List.insertionSort recDescending
    ((progressData.filter (fun e => e.problems_attempted > 0)).map
      toRecommendation)

/-! ## Hint credits (`supabaseSchema.ts`, `useHintCredit`) -/

/-- The `hint_type` union of the source. -/
inductive HintType
  | code
  | approach
  | complexity
  | pseudocode
deriving DecidableEq, Repr

/-- A `user_profiles` row (the columns the credit logic touches). -/
structure UserProfileRow where
  id : Nat
  hint_credits_remaining : Int
  last_credit_reset : Nat
deriving DecidableEq, Repr

/-- A `hint_usage` row. -/
structure HintUsageRow where
  user_id : Nat
  problem_id : Nat
  hint_type : HintType
  section_index : Nat
  created_at : Nat
deriving DecidableEq, Repr

/-- The slice of the database the credit logic reads and writes. -/
structure Db where
  profiles : List UserProfileRow
  hint_usage : List HintUsageRow
deriving DecidableEq, Repr

/-- The `oneDayMs` constant of `getUserProfile`. -/
def oneDayMs : Nat := 24 * 60 * 60 * 1000

/-- The single-row profile select of `getUserProfile`, filtered by user id. -/
def findProfile (db : Db) (userId : Nat) : Option UserProfileRow :=
  db.profiles.find? (fun p => p.id == userId)

/-- Model of `initUserProfile`: inserts a fresh profile with twenty daily
credits. -/
def initUserProfile (now : Nat) (userId : Nat) (db : Db) :
    Option UserProfileRow × Db :=
  let row : UserProfileRow :=
    { id := userId, hint_credits_remaining := 20, last_credit_reset := now }
  (some row, { db with profiles := db.profiles ++ [row] })

/-- Model of `resetDailyCredits`: updates the profile back to twenty credits and
stamps the reset time, returning the updated row. -/
def resetDailyCredits (now : Nat) (userId : Nat) (db : Db) :
    Option UserProfileRow × Db :=
  let profiles := db.profiles.map (fun p =>
    if p.id == userId then
      { p with hint_credits_remaining := 20, last_credit_reset := now }
    else p)
  let db' := { db with profiles := profiles }
  (findProfile db' userId, db')

/-- Model of `getUserProfile`: fetches the profile, creating it when missing,
and resetting the daily credits when at least a day has passed since
`last_credit_reset` (JavaScript computes the signed difference of the
timestamps; with truncated natural subtraction a reset time in the
future likewise does not trigger the reset). -/
def getUserProfile (now : Nat) (userId : Nat) (db : Db) :
    Option UserProfileRow × Db :=
  match findProfile db userId with
  | none => initUserProfile now userId db
  | some p =>
      if oneDayMs ≤ now - p.last_credit_reset then
        resetDailyCredits now userId db
      else (some p, db)

/-- The result object of `useHintCredit`. -/
structure HintResult where
  success : Bool
  creditsRemaining : Option Int
  error : Option String
deriving DecidableEq, Repr

/-- The profile update issued by `useHintCredit` (sets
`hint_credits_remaining` only). -/
def updateProfileCredits (db : Db) (userId : Nat) (credits : Int) : Db :=
  { db with
    profiles := db.profiles.map (fun p =>
      if p.id == userId then { p with hint_credits_remaining := credits }
      else p) }

/-- Model of `useHintCredit` of `supabaseSchema.ts`: fetch the profile via
`getUserProfile`, reject with `creditsRemaining = 0` when no credits
remain, otherwise decrement the credit and insert a `hint_usage` row.
Remote-I/O failures are outside the model; the update-failure branch
corresponds to the profile being absent after the update. -/
def useHintCredit (now : Nat) (userId : Nat) (problemId : Nat)
    (hintType : HintType) (sectionIndex : Nat) (db : Db) :
    HintResult × Db :=
  match getUserProfile now userId db with
  | (none, db1) =>
      ({ success := false, creditsRemaining := none,
         error := some "User profile not found" }, db1)
  | (some profile, db1) =>
      if profile.hint_credits_remaining ≤ 0 then
        ({ success := false, creditsRemaining := some 0,
           error := some "No hint credits remaining today" }, db1)
      else
        let db2 := updateProfileCredits db1 userId
          (profile.hint_credits_remaining - 1)
        match findProfile db2 userId with
        | none =>
            ({ success := false, creditsRemaining := none,
               error := some "Failed to update hint credits" }, db2)
        | some updated =>
            let usage : HintUsageRow :=
              { user_id := userId, problem_id := problemId,
                hint_type := hintType, section_index := sectionIndex,
                created_at := now }
            ({ success := true,
               creditsRemaining := some updated.hint_credits_remaining,
               error := none },
             { db2 with hint_usage := db2.hint_usage ++ [usage] })

/-! ## Progressive disclosure (`BlurredCodeSection.tsx`) -/

/-- The `percentage` column of the `REVEAL_LEVELS` ladder of
`BlurredCodeSection.tsx`. -/
def REVEAL_LEVELS_percentages : List Nat := [20, 40, 60, 80, 100]

/-- Helper for `codeLines`: splits a character list at every newline,
accumulating the current line in reverse. -/
def splitLinesAux : List Char → List Char → List String
  | [], acc => [String.mk acc.reverse]
  | c :: cs, acc =>
    if c = '\n' then String.mk acc.reverse :: splitLinesAux cs []
    else splitLinesAux cs (c :: acc)

/-- Model of the newline split `code.split` of the source: the lines,
with the same corner cases as the JavaScript `split` (an empty string
yields one empty line, a trailing newline yields a trailing empty
line). -/
def codeLines (code : String) : List String := splitLinesAux code.data []

/-- Model of `getVisibleLines` of `BlurredCodeSection.tsx`: nothing at level 0;
otherwise the first `Math.ceil((percentage / 100) * totalLines)` lines
for the percentage of the current ladder rung.  The double-precision
product of the source rounds to the mathematically exact value for
every realistic line count, so the ceiling is modelled with exact
natural arithmetic, `⌈p * n / 100⌉ = (p * n + 99) / 100`. -/
def getVisibleLines (code : String) (revealLevel : Nat) : List String :=
  if revealLevel = 0 then []
  else
    let lines := codeLines code
    let totalLines := lines.length
    let percentage := REVEAL_LEVELS_percentages.getD (revealLevel - 1) 0
    let visibleLineCount := (percentage * totalLines + 99) / 100
    lines.take visibleLineCount

/-- A JavaScript value as far as the `result.success` member access of
`BlurredCodeSection.tsx` is concerned: either `undefined` or an object
with a `success` field. -/
inductive JsValue
  | undef
  | obj (success : Bool)
deriving DecidableEq, Repr

/-- The value `handleRevealMore` awaits from `trackCodeReveal`: that
function is declared `Promise<void>` in `supabaseSchema.ts`, so the
awaited result is `undefined`. -/
def trackCodeRevealResult : JsValue := JsValue.undef

/-- The member access `result.success`: on `undefined` it throws a
`TypeError` (modelled as `Except.error`). -/
def jsGetSuccess : JsValue → Except String Bool
  | JsValue.undef => Except.error "TypeError"
  | JsValue.obj s => Except.ok s

/-- The component state of `BlurredCodeSection` the reveal button
manipulates. -/
structure RevealUiState where
  revealLevel : Nat
  isSatisfied : Bool
deriving DecidableEq, Repr

/-- Model of `handleRevealMore` of `BlurredCodeSection.tsx`: an unauthenticated
call shows a toast and returns with no state change; otherwise
`newLevel = min(revealLevel + 1, REVEAL_LEVELS.length)` is computed
and, inside the `try` block, `result.success` is read from the awaited
`trackCodeReveal` value before `setRevealLevel(newLevel)` runs.  When
that member access throws, control reaches the `catch` block, which
only shows an error toast, and the reveal level is left unchanged. -/
def handleRevealMore (user : Option Nat) (s : RevealUiState) :
    RevealUiState :=
  match user with
  | none => s
  | some _ =>
      let newLevel := min (s.revealLevel + 1) 5
      match jsGetSuccess trackCodeRevealResult with
      | Except.error _ => s
      | Except.ok _ => { s with revealLevel := newLevel }

/-! ## Theorems -/

/-- Claim C1 (amended): while the flow machine is in `user_explanation`
with `hasSubmittedExplanation` false, no cache event changes the
current step — a cache notification on any key (including an unrelated
invalidation) and a cache write on any key (including
`problem_statement` and `solution` writes) leave the step at
`user_explanation`; but the `onSolutionSuccess` platform event handler
bypasses the guard and sets the step to `solution_ready`. -/
theorem user_explanation_cache_event_guard (s : FlowState)
    (h1 : s.currentStep = SolutionStep.user_explanation)
    (h2 : s.hasSubmittedExplanation = false) :
    (∀ k, (cacheNotify k s).currentStep = SolutionStep.user_explanation) ∧
    (∀ k v, (setQueryData k v s).currentStep = SolutionStep.user_explanation) ∧
    (∀ d, (onSolutionSuccess (some d) s).currentStep =
      SolutionStep.solution_ready) := by
  have hg : shouldUpdateStep s = false := by
    simp [shouldUpdateStep, h1, h2]
  refine ⟨fun k => ?_, fun k v => ?_, fun d => ?_⟩
  · simp [cacheNotify, hg, h1]
  · cases k <;> simp [setQueryData, cacheNotify, shouldUpdateStep, h1, h2]
  · simp [onSolutionSuccess]

/-- Witness for `user_explanation_cache_event_guard` at a concrete
awaiting-explanation state. -/
theorem user_explanation_cache_event_guard_witness :
    (cacheNotify CacheKey.other
      { currentStep := SolutionStep.user_explanation,
        hasSubmittedExplanation := false, problemInfo := some 0,
        solutionData := none,
        cache := { problem_statement := some 0, solution := none,
                   new_solution := none },
        view := View.solutions, toastCount := 0 }).currentStep =
      SolutionStep.user_explanation ∧
    (setQueryData CacheKey.solution 9
      { currentStep := SolutionStep.user_explanation,
        hasSubmittedExplanation := false, problemInfo := some 0,
        solutionData := none,
        cache := { problem_statement := some 0, solution := none,
                   new_solution := none },
        view := View.solutions, toastCount := 0 }).currentStep =
      SolutionStep.user_explanation ∧
    (onSolutionSuccess (some 9)
      { currentStep := SolutionStep.user_explanation,
        hasSubmittedExplanation := false, problemInfo := some 0,
        solutionData := none,
        cache := { problem_statement := some 0, solution := none,
                   new_solution := none },
        view := View.solutions, toastCount := 0 }).currentStep =
      SolutionStep.solution_ready :=
  ⟨(user_explanation_cache_event_guard _ rfl rfl).1 _,
   (user_explanation_cache_event_guard _ rfl rfl).2.1 _ _,
   (user_explanation_cache_event_guard _ rfl rfl).2.2 _⟩

/-- Counterexample to claim C1 as stated: in a concrete state that is
in `user_explanation` with no submitted explanation, a solution-success
event does not leave the step at `user_explanation` — it moves the
machine to `solution_ready`. -/
theorem user_explanation_solution_success_counterexample :
    (onSolutionSuccess (some 1)
      { currentStep := SolutionStep.user_explanation,
        hasSubmittedExplanation := false, problemInfo := some 0,
        solutionData := none,
        cache := { problem_statement := some 0, solution := none,
                   new_solution := none },
        view := View.solutions, toastCount := 0 }).currentStep ≠
      SolutionStep.user_explanation := by
  decide

/-- Claim C2 (amended): in every state other than `extracting`, a
problem-extraction result arriving through the query cache (a
`problem_statement` notification or cache write) leaves the current
step unchanged; but the `onProblemExtracted` platform event handler
sets the step to `user_explanation` from every state. -/
theorem problem_extraction_step_behavior (s : FlowState) (d : Nat)
    (h : s.currentStep ≠ SolutionStep.extracting) :
    (cacheNotify CacheKey.problem_statement s).currentStep =
      s.currentStep ∧
    (setQueryData CacheKey.problem_statement d s).currentStep =
      s.currentStep ∧
    (onProblemExtracted d s).currentStep =
      SolutionStep.user_explanation := by
  have hne : (s.currentStep == SolutionStep.extracting) = false := by
    simpa using h
  refine ⟨?_, ?_, ?_⟩
  · by_cases hg : shouldUpdateStep s = true
    · simp [cacheNotify, hg, hne]
    · simp [cacheNotify, Bool.eq_false_iff.mpr hg]
  · by_cases hg : shouldUpdateStep s = true
    · have hg' : shouldUpdateStep
        { s with cache := { s.cache with problem_statement := some d } } =
          true := by
        simpa [shouldUpdateStep] using hg
      simp [setQueryData, cacheNotify, hg', hne]
    · have hg' : shouldUpdateStep
        { s with cache := { s.cache with problem_statement := some d } } =
          false := by
        simpa [shouldUpdateStep] using Bool.eq_false_iff.mpr hg
      simp [setQueryData, cacheNotify, hg']
  · simp [onProblemExtracted]

/-- Witness for `problem_extraction_step_behavior` at a concrete
`solution_ready` state. -/
theorem problem_extraction_step_behavior_witness :
    (cacheNotify CacheKey.problem_statement
      { currentStep := SolutionStep.solution_ready,
        hasSubmittedExplanation := true, problemInfo := some 0,
        solutionData := some 1,
        cache := { problem_statement := some 0, solution := some 1,
                   new_solution := none },
        view := View.solutions, toastCount := 0 }).currentStep =
      SolutionStep.solution_ready ∧
    (onProblemExtracted 7
      { currentStep := SolutionStep.solution_ready,
        hasSubmittedExplanation := true, problemInfo := some 0,
        solutionData := some 1,
        cache := { problem_statement := some 0, solution := some 1,
                   new_solution := none },
        view := View.solutions, toastCount := 0 }).currentStep =
      SolutionStep.user_explanation :=
  ⟨(problem_extraction_step_behavior _ 7 (by decide)).1,
   (problem_extraction_step_behavior _ 7 (by decide)).2.2⟩

/-- Counterexample to claim C2 as stated: a problem-extraction result
delivered by `onProblemExtracted` while the machine is in the concrete
state `solution_ready` changes the current step (to
`user_explanation`), so extraction results are not ignored in later
states. -/
theorem problem_extraction_regression_counterexample :
    (onProblemExtracted 7
      { currentStep := SolutionStep.solution_ready,
        hasSubmittedExplanation := true, problemInfo := some 0,
        solutionData := some 1,
        cache := { problem_statement := some 0, solution := some 1,
                   new_solution := none },
        view := View.solutions, toastCount := 0 }).currentStep ≠
      SolutionStep.solution_ready := by
  decide

/-- Claim C3 (amended): for every existing `code_reveals` row and every
invocation of `trackCodeReveal`, the stored `reveal_level` never
decreases; when the invocation does not increase the level, a non-null
`satisfied_at_level` is left untouched (never reduced, never nulled);
but a level-increasing invocation overwrites `satisfied_at_level` with
the `satisfiedAtLevel` argument, which can reduce it or set it back to
null. -/
theorem trackCodeReveal_monotone_and_overwrite (r : CodeRevealRow)
    (rl : Int) (sal : Option Int) :
    r.reveal_level ≤ (trackCodeReveal (some r) rl sal).reveal_level ∧
    (¬ r.reveal_level < rl → ∀ v, r.satisfied_at_level = some v →
      (trackCodeReveal (some r) rl sal).satisfied_at_level = some v) ∧
    (r.reveal_level < rl →
      (trackCodeReveal (some r) rl sal).satisfied_at_level = sal) := by
  refine ⟨?_, ?_, ?_⟩
  · by_cases h : r.reveal_level < rl
    · simp [trackCodeReveal, h]
      exact le_of_lt h
    · by_cases h2 : sal.isSome && r.satisfied_at_level.isNone
      · simp [trackCodeReveal, h, h2]
      · simp [trackCodeReveal, h, h2]
  · intro h v hv
    have hns : r.satisfied_at_level.isNone = false := by
      simp [hv]
    simp [trackCodeReveal, h, hns, hv]
  · intro h
    simp [trackCodeReveal, h]

/-- Witness for `trackCodeReveal_monotone_and_overwrite`: a
non-level-increasing call with a null `satisfiedAtLevel` argument on a
row sitting at level 2 with satisfaction 2 keeps both columns. -/
theorem trackCodeReveal_monotone_and_overwrite_witness :
    (2 : Int) ≤ (trackCodeReveal
      (some { reveal_level := 2, satisfied_at_level := some 2 }) 1
      none).reveal_level ∧
    (trackCodeReveal
      (some { reveal_level := 2, satisfied_at_level := some 2 }) 1
      none).satisfied_at_level = some 2 :=
  ⟨(trackCodeReveal_monotone_and_overwrite _ 1 none).1,
   (trackCodeReveal_monotone_and_overwrite _ 1 none).2.1 (by decide) 2 rfl⟩

/-- Counterexample to claim C3 as stated: on a row with
`reveal_level = 2` and `satisfied_at_level = 2`, the invocation
`trackCodeReveal` with `revealLevel = 3` and `satisfiedAtLevel = null`
sets the stored `satisfied_at_level` back to null. -/
theorem trackCodeReveal_satisfaction_nulled_counterexample :
    (trackCodeReveal
      (some { reveal_level := 2, satisfied_at_level := some 2 }) 3
      none).satisfied_at_level = none := by
  decide

/-- Counterexample to claim C4 as stated: for a user whose only
problem in the category has three reveal events at levels 2, 3 and 5
(the last satisfied) inside the trailing 30-day window, the progress
recomputation does not produce `(2+3+5)/3 = 10/3`: the accumulation
loop counts only the first event per distinct problem. -/
theorem graph_scenario_avg_counterexample :
    (updateLearningProgressFromReveal thirtyDaysMs "Graph" [1]
      [{ problem_id := 1, reveal_level := 2, satisfied_at_level := none,
         created_at := 100 },
       { problem_id := 1, reveal_level := 3, satisfied_at_level := none,
         created_at := 200 },
       { problem_id := 1, reveal_level := 5,
         satisfied_at_level := some 5, created_at := 300 }]
      none (some 5)).avg_reveal_level ≠ 10 / 3 := by
  norm_num [updateLearningProgressFromReveal, recentReveals,
    avgRevealLevel, revealFold, effectiveLevel, thirtyDaysMs]

/-- Claim C4 (amended): in the scenario of one "Graph" problem with
three in-window reveal events at levels 2, 3 and 5 (the last
satisfied), the recomputation deduplicates by problem and uses only
the effective level of the first event row per problem, so it produces
`avg_reveal_level = 2`, which is not above the needs-more-help
threshold of 3. -/
theorem graph_scenario_avg_value :
    (updateLearningProgressFromReveal thirtyDaysMs "Graph" [1]
      [{ problem_id := 1, reveal_level := 2, satisfied_at_level := none,
         created_at := 100 },
       { problem_id := 1, reveal_level := 3, satisfied_at_level := none,
         created_at := 200 },
       { problem_id := 1, reveal_level := 5,
         satisfied_at_level := some 5, created_at := 300 }]
      none (some 5)).avg_reveal_level = 2 ∧ ¬ ((2 : ℚ) > 3) := by
  constructor
  · norm_num [updateLearningProgressFromReveal, recentReveals,
      avgRevealLevel, revealFold, effectiveLevel, thirtyDaysMs]
  · norm_num

/-- Claim C5 (code bug): `handleRevealMore` never changes the
component state at all.  `trackCodeReveal` is declared
`Promise<void>`, so the `result.success` member access inside the
`try` block throws a `TypeError` before `setRevealLevel(newLevel)` is
reached, and the `catch` block only shows a toast; an unauthenticated
call returns early.  In particular the resulting level is not
`min(initial_level + call_count, 5)` for any positive call count. -/
theorem handleRevealMore_leaves_level_unchanged
    (user : Option Nat) (s : RevealUiState) :
    handleRevealMore user s = s := by
  cases user <;> rfl

/-- Claim C6 (confirmed): at every reveal level `L` between 1 and 5
the visible content is the first `⌈L / 5 * total_lines⌉` lines of the
newline-split content (in exact arithmetic,
`(L * total_lines + 4) / 5` lines), and at level 0 nothing is
visible. -/
theorem getVisibleLines_prefix_ceil (code : String) (L : Nat)
    (h1 : 1 ≤ L) (h5 : L ≤ 5) :
    getVisibleLines code L =
      (codeLines code).take ((L * (codeLines code).length + 4) / 5) ∧
    getVisibleLines code 0 = [] := by
  constructor
  · interval_cases L
    · exact congrArg (fun m => (codeLines code).take m)
        (by omega : (20 * (codeLines code).length + 99) / 100 =
          (1 * (codeLines code).length + 4) / 5)
    · exact congrArg (fun m => (codeLines code).take m)
        (by omega : (40 * (codeLines code).length + 99) / 100 =
          (2 * (codeLines code).length + 4) / 5)
    · exact congrArg (fun m => (codeLines code).take m)
        (by omega : (60 * (codeLines code).length + 99) / 100 =
          (3 * (codeLines code).length + 4) / 5)
    · exact congrArg (fun m => (codeLines code).take m)
        (by omega : (80 * (codeLines code).length + 99) / 100 =
          (4 * (codeLines code).length + 4) / 5)
    · exact congrArg (fun m => (codeLines code).take m)
        (by omega : (100 * (codeLines code).length + 99) / 100 =
          (5 * (codeLines code).length + 4) / 5)
  · simp [getVisibleLines]

/-- Witness for `getVisibleLines_prefix_ceil`: a three-line content at
level 2 shows its first `⌈2/5 * 3⌉ = 2` lines. -/
theorem getVisibleLines_prefix_ceil_witness :
    getVisibleLines "a\nb\nc" 2 =
      (codeLines "a\nb\nc").take
        ((2 * (codeLines "a\nb\nc").length + 4) / 5) ∧
    getVisibleLines "a\nb\nc" 0 = [] ∧
    getVisibleLines "a\nb\nc" 2 = ["a", "b"] :=
  ⟨(getVisibleLines_prefix_ceil "a\nb\nc" 2 (by decide) (by decide)).1,
   (getVisibleLines_prefix_ceil "a\nb\nc" 2 (by decide) (by decide)).2,
   by rfl⟩

/-- Claim C7 (confirmed): `getRecommendedCategories` returns exactly
the categories with at least one attempted problem (as a permutation
of the filtered, mapped input), sorted descending by
`avg_reveal_level`, and attaches the needs-more-help focus reason
exactly when `avg_reveal_level > 3` and the good-progress reason
otherwise. -/
theorem getRecommendedCategories_spec (pd : List ProgressEntry) :
    List.Sorted recDescending (getRecommendedCategories pd) ∧
    (getRecommendedCategories pd).Perm
      ((pd.filter (fun e => e.problems_attempted > 0)).map
        toRecommendation) ∧
    ∀ r ∈ getRecommendedCategories pd,
      (r.focus_reason = FocusReason.needsMoreHelp ↔
        r.avg_reveal_level > 3) := by
  refine ⟨List.sorted_insertionSort _ _, List.perm_insertionSort _ _, ?_⟩
  intro r hr
  have hr' : r ∈ (pd.filter (fun e => e.problems_attempted > 0)).map
      toRecommendation :=
    (List.perm_insertionSort recDescending _).mem_iff.mp hr
  obtain ⟨e, _, rfl⟩ := List.mem_map.mp hr'
  by_cases h : e.avg_reveal_level > 3
  · simp [toRecommendation, h]
  · simp [toRecommendation, h]

/-- Witness for `getRecommendedCategories_spec` on a one-row input with
`avg_reveal_level = 4`. -/
theorem getRecommendedCategories_spec_witness :
    List.Sorted recDescending (getRecommendedCategories
      [{ category := "Graph", avg_reveal_level := 4,
         problems_attempted := 2, problems_solved := 1 }]) ∧
    ((toRecommendation
        { category := "Graph", avg_reveal_level := 4,
          problems_attempted := 2, problems_solved := 1 }).focus_reason =
      FocusReason.needsMoreHelp ↔
      (toRecommendation
        { category := "Graph", avg_reveal_level := 4,
          problems_attempted := 2,
          problems_solved := 1 }).avg_reveal_level > 3) :=
  ⟨(getRecommendedCategories_spec _).1,
   (getRecommendedCategories_spec
      [{ category := "Graph", avg_reveal_level := 4,
         problems_attempted := 2, problems_solved := 1 }]).2.2 _ (by
     simp [getRecommendedCategories, List.insertionSort,
       List.orderedInsert])⟩

/-- Claim C8 (confirmed): on a solution-generation error, the view is
switched to `queue` exactly when no solution exists in the session
cache; when a cached solution exists, it stays the displayed solution
data, the step and view are untouched, and only a toast is emitted. -/
theorem onSolutionError_revert_iff_no_solution (s : FlowState)
    (h : s.view = View.solutions) :
    (((onSolutionError s).view = View.queue) ↔
      s.cache.solution = none) ∧
    (∀ v, s.cache.solution = some v →
      (onSolutionError s).solutionData = some v ∧
      (onSolutionError s).currentStep = s.currentStep ∧
      (onSolutionError s).view = View.solutions) ∧
    (onSolutionError s).toastCount = s.toastCount + 1 := by
  cases hc : s.cache.solution <;> simp [onSolutionError, hc, h]

/-- Witness for `onSolutionError_revert_iff_no_solution` at a concrete
state holding a cached solution. -/
theorem onSolutionError_revert_iff_no_solution_witness :
    (((onSolutionError
      { currentStep := SolutionStep.generating_solution,
        hasSubmittedExplanation := true, problemInfo := some 0,
        solutionData := some 3,
        cache := { problem_statement := some 0, solution := some 3,
                   new_solution := none },
        view := View.solutions, toastCount := 0 }).view = View.queue) ↔
      ({ problem_statement := some 0, solution := some 3,
         new_solution := none } : Cache).solution = none) ∧
    (onSolutionError
      { currentStep := SolutionStep.generating_solution,
        hasSubmittedExplanation := true, problemInfo := some 0,
        solutionData := some 3,
        cache := { problem_statement := some 0, solution := some 3,
                   new_solution := none },
        view := View.solutions, toastCount := 0 }).toastCount = 0 + 1 :=
  ⟨(onSolutionError_revert_iff_no_solution _ rfl).1,
   (onSolutionError_revert_iff_no_solution _ rfl).2.2⟩

/-- Claim C9 (amended): when the stored profile has zero hint credits
and the daily credit reset is not yet due, `useHintCredit` returns the
rejection result with `creditsRemaining = 0` and leaves the database
unchanged (no profile update, no hint-usage insert). -/
theorem useHintCredit_rejects_without_mutation (now userId pid : Nat)
    (ht : HintType) (si : Nat) (db : Db) (p : UserProfileRow)
    (hfind : findProfile db userId = some p)
    (hcred : p.hint_credits_remaining = 0)
    (htime : now - p.last_credit_reset < oneDayMs) :
    useHintCredit now userId pid ht si db =
      ({ success := false, creditsRemaining := some 0,
         error := some "No hint credits remaining today" }, db) := by
  have hreset : ¬ oneDayMs ≤ now - p.last_credit_reset := not_le.mpr htime
  simp [useHintCredit, getUserProfile, hfind, hreset, hcred]

/-- Witness for `useHintCredit_rejects_without_mutation` at a concrete
profile with zero credits reset at the current instant. -/
theorem useHintCredit_rejects_without_mutation_witness :
    useHintCredit 100 1 5 HintType.code 0
      { profiles := [{ id := 1, hint_credits_remaining := 0,
                       last_credit_reset := 100 }], hint_usage := [] } =
      ({ success := false, creditsRemaining := some 0,
         error := some "No hint credits remaining today" },
       { profiles := [{ id := 1, hint_credits_remaining := 0,
                        last_credit_reset := 100 }], hint_usage := [] }) :=
  useHintCredit_rejects_without_mutation 100 1 5 HintType.code 0 _ _
    rfl rfl (by decide)

/-- Counterexample to claim C9 as stated: a profile with zero credits
whose last reset lies a full day in the past is silently reset by
`getUserProfile` inside `useHintCredit`, so the call succeeds, reports
19 remaining credits, and mutates the database. -/
theorem useHintCredit_daily_reset_counterexample :
    (useHintCredit oneDayMs 1 5 HintType.code 0
      { profiles := [{ id := 1, hint_credits_remaining := 0,
                       last_credit_reset := 0 }],
        hint_usage := [] }).1.success = true ∧
    (useHintCredit oneDayMs 1 5 HintType.code 0
      { profiles := [{ id := 1, hint_credits_remaining := 0,
                       last_credit_reset := 0 }],
        hint_usage := [] }).1.creditsRemaining = some 19 ∧
    (useHintCredit oneDayMs 1 5 HintType.code 0
      { profiles := [{ id := 1, hint_credits_remaining := 0,
                       last_credit_reset := 0 }],
        hint_usage := [] }).2 ≠
      { profiles := [{ id := 1, hint_credits_remaining := 0,
                       last_credit_reset := 0 }], hint_usage := [] } := by
  decide

/-- Claim C10 (confirmed): when no reveal of the user falls inside the
trailing 30-day window for the affected category, the recomputation
writes `avg_reveal_level = 5`, the worst possible score, which lies
above the needs-more-help threshold of 3. -/
theorem updateLearningProgress_empty_window_worst_score
    (now : Nat) (category : String) (catIds : List Nat)
    (reveals : List StoredReveal)
    (progress : Option LearningProgressRow) (sal : Option Int)
    (hempty : recentReveals now catIds reveals = []) :
    (updateLearningProgressFromReveal now category catIds reveals
      progress sal).avg_reveal_level = 5 ∧ (3 : ℚ) < 5 := by
  constructor
  · cases progress <;>
      simp [updateLearningProgressFromReveal, hempty, avgRevealLevel,
        revealFold]
  · norm_num

/-- Witness for `updateLearningProgress_empty_window_worst_score`: a
reveal on a problem outside the category contributes nothing, and the
written average is 5. -/
theorem updateLearningProgress_empty_window_worst_score_witness :
    (updateLearningProgressFromReveal 0 "Graph" []
      [{ problem_id := 1, reveal_level := 2, satisfied_at_level := none,
         created_at := 0 }] none none).avg_reveal_level = 5 ∧
    (3 : ℚ) < 5 :=
  updateLearningProgress_empty_window_worst_score 0 "Graph" [] _ none
    none (by decide)
